import Mathlib

/-!
# Verification of the Glide (wkgrip) settings front-end and engine interface

Shallow embedding of the TypeScript configuration model (`src/lib/config.ts`),
the persistence layer (`src/lib/store.ts`) and the two Svelte settings
components, together with spec-modelled fragments of the native engine
(geometry for Move gestures, the opacity controller) whose Rust source is not
part of the front-end tree.

Strings are embedded as Lean `String` (a wrapper around `List Char`);
JavaScript's `String.prototype.trim` is embedded as dropping whitespace
characters from both ends of the character list.
-/

set_option maxHeartbeats 1000000

namespace Glide

/-- `ModifierKey` from `src/lib/config.ts`. -/
inductive ModifierKey where
  | alt | ctrl | shift | win
deriving DecidableEq, Repr

/-- `FilterMode` from `src/lib/config.ts`. -/
inductive FilterMode where
  | whitelist | blacklist
deriving DecidableEq, Repr

/-- `AppConfig` interface from `src/lib/config.ts` (the full variant with the
snapping / opacity / topmost fields). TS `number` for `snap_threshold` is
embedded as `Int`. -/
structure AppConfig where
  enabled : Bool
  move_modifier : ModifierKey
  resize_modifier_1 : ModifierKey
  resize_modifier_2 : ModifierKey
  filter_mode : FilterMode
  filter_list : List String
  autostart : Bool
  allow_nonforeground : Bool
  raise_on_grab : Bool
  snap_enabled : Bool
  snap_threshold : Int
  scroll_opacity : Bool
  middleclick_topmost : Bool
deriving DecidableEq, Repr

/-- `DEFAULT_CONFIG` from `src/lib/config.ts`. -/
def DEFAULT_CONFIG : AppConfig :=
  { enabled := true
    move_modifier := .alt
    resize_modifier_1 := .alt
    resize_modifier_2 := .shift
    filter_mode := .blacklist
    filter_list := []
    autostart := false
    allow_nonforeground := true
    raise_on_grab := false
    snap_enabled := true
    snap_threshold := 20
    scroll_opacity := true
    middleclick_topmost := true }

/-- JavaScript `String.prototype.trim` on the underlying character list:
drop whitespace from the front, then from the back. -/
def trimChars (l : List Char) : List Char :=
  List.rdropWhile Char.isWhitespace (l.dropWhile Char.isWhitespace)

/-- JavaScript `name.trim()` embedded on Lean strings. -/
def jsTrim (s : String) : String :=
  String.mk (trimChars s.data)

/-- `loadConfig` from `src/lib/store.ts`: `const config = await store.get('config');
return config ?? DEFAULT_CONFIG;`. The store's value under the key `config` is
embedded as an `Option AppConfig`. -/
def loadConfig (stored : Option AppConfig) : AppConfig :=
  match stored with
  | some config => config
  | none => DEFAULT_CONFIG

/-- `saveConfig` from `src/lib/store.ts`: `store.set('config', config)`. -/
def saveConfig (_stored : Option AppConfig) (config : AppConfig) : Option AppConfig :=
  some config

/-! ## Filter-list operations

List-level content of the add/remove handlers shared by both settings
components. JS `Array.prototype.includes` is exact (`===`) string comparison;
JS truthiness of a string is `≠ ""`. -/

/-- `addProcess` of the first settings component (list-level part):
`const name = newProcess.trim(); if (name && !filter_list.includes(name))
filter_list = [...filter_list, name];`. -/
def addProcessList (l : List String) (newProcess : String) : List String :=
  let name := jsTrim newProcess
  if name ≠ "" ∧ name ∉ l then l ++ [name] else l

/-- `addProcessName` of the second settings component:
`const normalized = name.trim(); if (normalized && !filter_list.includes(normalized))
filter_list = [...filter_list, normalized];`. -/
def addProcessNameList (l : List String) (name : String) : List String :=
  let normalized := jsTrim name
  if normalized ≠ "" ∧ normalized ∉ l then l ++ [normalized] else l

/-- `addFromSuggestion` of the first settings component (list-level part):
`if (!filter_list.includes(name)) filter_list = [...filter_list, name];` —
note: no trimming and no emptiness check. -/
def addFromSuggestionList (l : List String) (name : String) : List String :=
  if name ∉ l then l ++ [name] else l

/-- `removeProcess` (both components): `filter_list.filter((p) => p !== name)`. -/
def removeProcessList (l : List String) (name : String) : List String :=
  l.filter (fun p => p ≠ name)

/-- `saveStatus` values of the first settings component. -/
inductive SaveStatus where
  | idle | saving | saved | error
deriving DecidableEq, Repr

/-! ## First settings component (simple page)

State and handlers of the first Svelte settings component. Results of the
fallible Tauri `invoke` calls are passed in explicitly as `Except Unit _`
values; the `catch {}` blocks of the source are the `.error` branches. -/

namespace PageA

/-- The `$state` variables of the first settings component. -/
structure State where
  config : AppConfig
  newProcess : String
  runningProcesses : List String
  showSuggestions : Bool
  saveStatus : SaveStatus
  autostartEnabled : Bool
  loaded : Bool
deriving DecidableEq, Repr

/-- `toggleEnabled`: flips `config.enabled`, then issues a `set_hook_enabled`
request with the new value; a failure of the call is swallowed (`catch {}`).
Returns the new state and the list of `set_hook_enabled` arguments issued. -/
def toggleEnabled (s : State) (_hookResult : Except Unit Unit) : State × List Bool :=
  let s' := { s with config := { s.config with enabled := !s.config.enabled } }
  (s', [s'.config.enabled])

/-- `addProcess`: trims the text-box value, appends it to the filter list when
non-empty and not already present, then clears the box and the suggestions. -/
def addProcess (s : State) : State :=
  { s with
    config := { s.config with filter_list := addProcessList s.config.filter_list s.newProcess }
    newProcess := ""
    showSuggestions := false }

/-- `removeProcess`. -/
def removeProcess (s : State) (name : String) : State :=
  { s with config := { s.config with filter_list := removeProcessList s.config.filter_list name } }

/-- `addFromSuggestion`. -/
def addFromSuggestion (s : State) (name : String) : State :=
  { s with
    config := { s.config with filter_list := addFromSuggestionList s.config.filter_list name }
    showSuggestions := false
    newProcess := "" }

/-- `loadRunning`: on success stores the returned process names and shows the
suggestion popup iff the list is non-empty; on failure clears the list. -/
def loadRunning (s : State) (result : Except Unit (List String)) : State :=
  match result with
  | .ok procs => { s with runningProcesses := procs, showSuggestions := procs.length > 0 }
  | .error _ => { s with runningProcesses := [] }

/-- `save`: `invoke('set_config', {config})` then `saveConfig(config)` inside one
`try`; on any rejection the `catch` sets the error status and `saveConfig` is
never reached. Returns the new store contents, the resulting status, and the
list of arguments `saveConfig` was invoked with. -/
def save (store : Option AppConfig) (config : AppConfig) (setConfigResult : Except Unit Unit) :
    Option AppConfig × SaveStatus × List AppConfig :=
  match setConfigResult with
  | .ok _ => (saveConfig store config, SaveStatus.saved, [config])
  | .error _ => (store, SaveStatus.error, [])

end PageA

/-! ## Second settings component (sidebar page)

State and handlers of the second Svelte settings component (the one with
autosave). `lastSavedSnapshot` is a `JSON.stringify` snapshot string in the
source, initially `''`; it is embedded as `Option AppConfig` with `none` for
`''` (stringification of equal configs is equal and `''` matches no config). -/

namespace PageB

/-- The `$state` variables of the second settings component. -/
structure State where
  config : AppConfig
  runningProcesses : List String
  runningProcessValue : String
  autostartEnabled : Bool
  loaded : Bool
  lastSavedSnapshot : Option AppConfig
deriving DecidableEq, Repr

/-- `loadRunning`: on success stores the returned names, on failure clears. -/
def loadRunning (s : State) (result : Except Unit (List String)) : State :=
  match result with
  | .ok procs => { s with runningProcesses := procs }
  | .error _ => { s with runningProcesses := [] }

/-- The first `onMount` of the second component: load the config via
`get_config` (falling back to `DEFAULT_CONFIG` on failure), mirror the
autostart plugin state, refresh the running-process list, then
unconditionally set `config.enabled = true` and issue `set_hook_enabled(true)`
(its failure swallowed), reset the autosave snapshot and mark the page loaded.
Returns the new state and the list of `set_hook_enabled` arguments issued. -/
def onMount (s : State) (getConfigResult : Except Unit AppConfig)
    (isEnabledResult : Except Unit Bool) (runningResult : Except Unit (List String)) :
    State × List Bool :=
  let s1 := match getConfigResult with
    | .ok loaded_cfg => { s with config := loaded_cfg }
    | .error _ => { s with config := DEFAULT_CONFIG }
  let s2 := match isEnabledResult with
    | .ok b => { s1 with autostartEnabled := b, config := { s1.config with autostart := b } }
    | .error _ => { s1 with autostartEnabled := false }
  let s3 := loadRunning s2 runningResult
  let s4 := { s3 with config := { s3.config with enabled := true } }
  ({ s4 with lastSavedSnapshot := none, loaded := true }, [true])

/-- `addProcessName`. -/
def addProcessName (s : State) (name : String) : State :=
  { s with config := { s.config with filter_list := addProcessNameList s.config.filter_list name } }

/-- `onRunningProcessSelect`: `if (!value) return; addProcessName(value);
runningProcessValue = '';`. -/
def onRunningProcessSelect (s : State) (value : String) : State :=
  if value = "" then s
  else { addProcessName s value with runningProcessValue := "" }

/-- `toggleAutostart(next)`: mirrors the flag into the state and the config;
the enable/disable plugin call's failure is swallowed. -/
def toggleAutostart (s : State) (next : Bool) (_pluginResult : Except Unit Unit) : State :=
  { s with autostartEnabled := next, config := { s.config with autostart := next } }

/-- `removeProcess`. -/
def removeProcess (s : State) (name : String) : State :=
  { s with config := { s.config with filter_list := removeProcessList s.config.filter_list name } }

/-- The debounced body of the autosave `$effect`: skip when not loaded or when
the config equals the last saved snapshot; otherwise `set_config` then
`saveConfig`, updating the snapshot — with any failure swallowed, leaving
store and snapshot untouched. Returns (new state, new store contents, list of
arguments `saveConfig` was invoked with). -/
def autosaveFlush (s : State) (store : Option AppConfig) (setConfigResult : Except Unit Unit) :
    State × Option AppConfig × List AppConfig :=
  if s.loaded = false then (s, store, [])
  else if some s.config = s.lastSavedSnapshot then (s, store, [])
  else
    match setConfigResult with
    | .ok _ => ({ s with lastSavedSnapshot := some s.config }, saveConfig store s.config, [s.config])
    | .error _ => (s, store, [])

/-- Two-way binding `bind:value={config.move_modifier}` of the modifier select. -/
def setMoveModifier (s : State) (v : ModifierKey) : State :=
  { s with config := { s.config with move_modifier := v } }

/-- Binding `bind:value={config.resize_modifier_1}`. -/
def setResizeModifier1 (s : State) (v : ModifierKey) : State :=
  { s with config := { s.config with resize_modifier_1 := v } }

/-- Binding `bind:value={config.resize_modifier_2}`. -/
def setResizeModifier2 (s : State) (v : ModifierKey) : State :=
  { s with config := { s.config with resize_modifier_2 := v } }

/-- Binding `bind:value={config.filter_mode}` of the filter-mode radio group. -/
def setFilterMode (s : State) (v : FilterMode) : State :=
  { s with config := { s.config with filter_mode := v } }

/-- Binding `bind:checked={config.allow_nonforeground}`. -/
def setAllowNonforeground (s : State) (v : Bool) : State :=
  { s with config := { s.config with allow_nonforeground := v } }

/-- Binding `bind:checked={config.raise_on_grab}`. -/
def setRaiseOnGrab (s : State) (v : Bool) : State :=
  { s with config := { s.config with raise_on_grab := v } }

/-- Binding `bind:checked={config.snap_enabled}`. -/
def setSnapEnabled (s : State) (v : Bool) : State :=
  { s with config := { s.config with snap_enabled := v } }

/-- Binding `bind:checked={config.scroll_opacity}`. -/
def setScrollOpacity (s : State) (v : Bool) : State :=
  { s with config := { s.config with scroll_opacity := v } }

/-- Binding `bind:checked={config.middleclick_topmost}`. -/
def setMiddleclickTopmost (s : State) (v : Bool) : State :=
  { s with config := { s.config with middleclick_topmost := v } }

end PageB

/-! ## Engine fragments modelled from the spec

The native engine (hook listener, drag state machine, geometry engine,
opacity controller) is not part of the front-end source tree; the fragments
the claims need are modelled from the spec. -/

/-- A screen point with integer pixel coordinates. -/
structure Pt where
  x : Int
  y : Int
deriving DecidableEq, Repr

/-- A window rectangle given by its edges. -/
structure Rect where
  left : Int
  top : Int
  right : Int
  bottom : Int
deriving DecidableEq, Repr

/-- Width of a rectangle. -/
def Rect.width (r : Rect) : Int := r.right - r.left

/-- Height of a rectangle. -/
def Rect.height (r : Rect) : Int := r.bottom - r.top

/-- Modelled from the spec: the Geometry Engine's Move rule with snapping
disabled — "new origin = origin_rect.origin + (current_point − origin_point);
size unchanged". -/
def moveRect (origin_rect : Rect) (origin_point current_point : Pt) : Rect :=
  { left := origin_rect.left + (current_point.x - origin_point.x)
    top := origin_rect.top + (current_point.y - origin_point.y)
    right := origin_rect.right + (current_point.x - origin_point.x)
    bottom := origin_rect.bottom + (current_point.y - origin_point.y) }

/-- Modelled from the spec: a live Move `DragSession` — the window rect and
point captured at the qualifying button-down, plus the rect last applied to
the window. -/
structure MoveSession where
  origin_rect : Rect
  origin_point : Pt
  current_rect : Rect
deriving DecidableEq, Repr

/-- Modelled from the spec: session creation at the qualifying button-down. -/
def sessionStart (origin_rect : Rect) (origin_point : Pt) : MoveSession :=
  { origin_rect := origin_rect, origin_point := origin_point, current_rect := origin_rect }

/-- Modelled from the spec: each `MouseMove` recomputes the rect from the
captured origin and applies it to the window immediately. -/
def sessionMove (s : MoveSession) (p : Pt) : MoveSession :=
  { s with current_rect := moveRect s.origin_rect s.origin_point p }

/-- Modelled from the spec: a full Move gesture — button-down at
`origin_point` on a window at `origin_rect`, any number of moves, button-up at
`last_point` committing the final rect. -/
def runMoveGesture (origin_rect : Rect) (origin_point : Pt) (moves : List Pt)
    (last_point : Pt) : Rect :=
  (sessionMove (moves.foldl sessionMove (sessionStart origin_rect origin_point)) last_point).current_rect

/-- Modelled from the spec: the Opacity Controller's clamp of an opacity
percentage to `[floor%, 100%]`. -/
def clampOpacity (floorPct v : Int) : Int :=
  max floorPct (min 100 v)

/-- Modelled from the spec: one wheel event in the `AdjustOpacity` state —
"adjust per-window opacity by a fixed step per notch, clamped to
[floor%, 100%]". `step` is the fixed per-notch step, `notches` the signed
notch count of the event. -/
def wheelAdjust (floorPct step : Int) (opacity : Int) (notches : Int) : Int :=
  clampOpacity floorPct (opacity + step * notches)

/-- Modelled from the spec: processing a whole sequence of wheel events while
the session stays in `AdjustOpacity`. -/
def processWheel (floorPct step : Int) (opacity : Int) (events : List Int) : Int :=
  events.foldl (wheelAdjust floorPct step) opacity

/-! ## The filter-list invariant

Formalisation of "every entry is a non-empty string without leading or
trailing whitespace, and there are no exact duplicates". -/

/-- A character list has no whitespace at its front. -/
def noWsHead (l : List Char) : Bool :=
  match l.head? with
  | some c => !c.isWhitespace
  | none => true

/-- A character list has no whitespace at its back. -/
def noWsLast (l : List Char) : Bool :=
  match l.getLast? with
  | some c => !c.isWhitespace
  | none => true

/-- A well-formed filter entry: non-empty, no leading and no trailing
whitespace. -/
def goodName (s : String) : Bool :=
  !s.data.isEmpty && noWsHead s.data && noWsLast s.data

/-- The filter-list invariant: every entry well-formed, no exact duplicates. -/
def filterInv (l : List String) : Prop :=
  (∀ s ∈ l, goodName s = true) ∧ l.Nodup

instance (l : List String) : Decidable (filterInv l) := by
  unfold filterInv; infer_instance

/-! ## Helper lemmas -/

theorem noWsHead_trimChars (l : List Char) : noWsHead (trimChars l) = true := by
  cases ht : trimChars l with
  | nil => simp [noWsHead]
  | cons c rest =>
    have hu : trimChars l <+: l.dropWhile Char.isWhitespace :=
      List.rdropWhile_prefix Char.isWhitespace (l.dropWhile Char.isWhitespace)
    rw [ht] at hu
    obtain ⟨u, hu⟩ := hu
    have hm := List.head?_dropWhile_not Char.isWhitespace l
    rw [← hu] at hm
    simp only [List.cons_append, List.head?_cons] at hm
    simp [noWsHead, hm]

theorem noWsLast_trimChars (l : List Char) : noWsLast (trimChars l) = true := by
  unfold noWsLast
  cases hl : (trimChars l).getLast? with
  | none => rfl
  | some c =>
    have hne : trimChars l ≠ [] := by
      intro h0
      rw [h0] at hl
      simp at hl
    have hlast : ((trimChars l).getLast hne).isWhitespace = false := by
      simpa using List.rdropWhile_last_not Char.isWhitespace (l.dropWhile Char.isWhitespace) hne
    have hsome : (trimChars l).getLast? = some ((trimChars l).getLast hne) :=
      List.getLast?_eq_getLast _ hne
    rw [hl] at hsome
    have hc : c = (trimChars l).getLast hne := by injection hsome
    rw [← hc] at hlast
    simp [hlast]

theorem goodName_jsTrim (s : String) (h : jsTrim s ≠ "") : goodName (jsTrim s) = true := by
  have hdata : (jsTrim s).data = trimChars s.data := rfl
  have hne : (trimChars s.data).isEmpty = false := by
    cases he : trimChars s.data with
    | nil =>
      exfalso
      apply h
      apply String.ext
      rw [hdata, he]
    | cons a as => rfl
  unfold goodName
  rw [hdata, hne, noWsHead_trimChars, noWsLast_trimChars]
  rfl

theorem filterInv_append (l : List String) (n : String) (hinv : filterInv l)
    (hg : goodName n = true) (hnotin : n ∉ l) : filterInv (l ++ [n]) := by
  obtain ⟨hgood, hnodup⟩ := hinv
  constructor
  · intro s hs
    rcases List.mem_append.mp hs with h | h
    · exact hgood s h
    · rw [List.mem_singleton.mp h]
      exact hg
  · rw [List.nodup_append]
    refine ⟨hnodup, List.nodup_singleton _, ?_⟩
    intro a ha hb
    rw [List.mem_singleton] at hb
    subst hb
    exact hnotin ha

theorem filterInv_addProcessNameList (l : List String) (n : String) (h : filterInv l) :
    filterInv (addProcessNameList l n) := by
  by_cases hc : jsTrim n ≠ "" ∧ jsTrim n ∉ l
  · simp only [addProcessNameList]
    rw [if_pos hc]
    exact filterInv_append l (jsTrim n) h (goodName_jsTrim n hc.1) hc.2
  · simp only [addProcessNameList]
    rw [if_neg hc]
    exact h

theorem addProcessList_eq : addProcessList = addProcessNameList := rfl

theorem filterInv_addProcessList (l : List String) (n : String) (h : filterInv l) :
    filterInv (addProcessList l n) := by
  rw [addProcessList_eq]
  exact filterInv_addProcessNameList l n h

theorem filterInv_removeProcessList (l : List String) (n : String) (h : filterInv l) :
    filterInv (removeProcessList l n) := by
  obtain ⟨hgood, hnodup⟩ := h
  exact ⟨fun s hs => hgood s (List.mem_of_mem_filter hs), hnodup.filter _⟩

theorem filterInv_addFromSuggestionList (l : List String) (n : String) (h : filterInv l)
    (hg : goodName n = true) : filterInv (addFromSuggestionList l n) := by
  by_cases hc : n ∉ l
  · simp only [addFromSuggestionList]
    rw [if_pos hc]
    exact filterInv_append l n h hg hc
  · simp only [addFromSuggestionList]
    rw [if_neg hc]
    exact h

theorem foldl_sessionMove_origin : ∀ (moves : List Pt) (s : MoveSession),
    (moves.foldl sessionMove s).origin_rect = s.origin_rect ∧
    (moves.foldl sessionMove s).origin_point = s.origin_point := by
  intro moves
  induction moves with
  | nil => intro s; exact ⟨rfl, rfl⟩
  | cons p ps ih => intro s; exact ih (sessionMove s p)

/-! ## Claim theorems -/

/-- C1 (counterexample): with a persisted config whose `enabled` is `false`,
the settings-window mount still issues a `set_hook_enabled` request and the
in-memory `enabled` ends up `true`, contradicting the claim that no
hook-install request is made and `enabled` stays `false`. -/
theorem C1_counterexample :
    ((PageB.onMount
        { config := DEFAULT_CONFIG, runningProcesses := [], runningProcessValue := "",
          autostartEnabled := false, loaded := false, lastSavedSnapshot := none }
        (Except.ok { DEFAULT_CONFIG with enabled := false })
        (Except.ok false) (Except.ok [])).2 ≠ []) ∧
    (PageB.onMount
        { config := DEFAULT_CONFIG, runningProcesses := [], runningProcessValue := "",
          autostartEnabled := false, loaded := false, lastSavedSnapshot := none }
        (Except.ok { DEFAULT_CONFIG with enabled := false })
        (Except.ok false) (Except.ok [])).1.config.enabled = true := by
  exact ⟨by decide, rfl⟩

/-- C1 (amended): at settings-window mount, exactly one `set_hook_enabled(true)`
request is issued unconditionally — regardless of the persisted config's
`enabled` field and of any call failures — and the in-memory config's
`enabled` is set to `true`. -/
theorem C1_mount_always_requests_hook :
    ∀ (s : PageB.State) (getConfigResult : Except Unit AppConfig)
      (isEnabledResult : Except Unit Bool) (runningResult : Except Unit (List String)),
      (PageB.onMount s getConfigResult isEnabledResult runningResult).2 = [true] ∧
      (PageB.onMount s getConfigResult isEnabledResult runningResult).1.config.enabled = true := by
  intro s g i r
  cases g <;> cases i <;> cases r <;> exact ⟨rfl, rfl⟩

/-- C2: on a rejected `set_config`, the previously persisted snapshot is kept and
`saveConfig` is never invoked — both in the explicit `save` handler and in the
autosave effect; only on success is the candidate written to the store. -/
theorem C2_rejected_config_keeps_store :
    (∀ (store : Option AppConfig) (candidate : AppConfig),
      (PageA.save store candidate (Except.error ())).1 = store ∧
      (PageA.save store candidate (Except.error ())).2.2 = [] ∧
      (PageA.save store candidate (Except.ok ())).1 = some candidate ∧
      (PageA.save store candidate (Except.ok ())).2.2 = [candidate]) ∧
    (∀ (s : PageB.State) (store : Option AppConfig),
      (PageB.autosaveFlush s store (Except.error ())).2.1 = store ∧
      (PageB.autosaveFlush s store (Except.error ())).2.2 = [] ∧
      ((PageB.autosaveFlush s store (Except.ok ())).2.1 = store ∨
        (PageB.autosaveFlush s store (Except.ok ())).2.1 = some s.config)) := by
  constructor
  · intro store candidate
    exact ⟨rfl, rfl, rfl, rfl⟩
  · intro s store
    refine ⟨?_, ?_, ?_⟩ <;> unfold PageB.autosaveFlush <;> split_ifs <;>
      simp [saveConfig]

/-- C3 (counterexample): the filter list is not a case-insensitive set — adding
`"Notepad.exe"` to a list already containing `"notepad.exe"` changes the list. -/
theorem C3_counterexample :
    addProcessNameList ["notepad.exe"] "Notepad.exe" ≠ ["notepad.exe"] := by decide

/-- C3 (amended): the process-filter name list behaves as a case-sensitive
(exact-match) set: adding a name whose trimmed form exactly equals an existing
entry leaves `filter_list` unchanged, while a trimmed non-empty name absent
from the list — even one differing from an entry only in letter case — is
appended. -/
theorem C3_exact_match_dedup :
    ∀ (l : List String) (n : String),
      (jsTrim n ∈ l → addProcessNameList l n = l ∧ addProcessList l n = l) ∧
      (jsTrim n ≠ "" → jsTrim n ∉ l →
        addProcessNameList l n = l ++ [jsTrim n] ∧ addProcessList l n = l ++ [jsTrim n]) := by
  intro l n
  constructor
  · intro h
    have hcond : ¬(jsTrim n ≠ "" ∧ jsTrim n ∉ l) := fun hc => hc.2 h
    constructor <;> simp only [addProcessNameList, addProcessList] <;> rw [if_neg hcond]
  · intro h1 h2
    have hcond : jsTrim n ≠ "" ∧ jsTrim n ∉ l := ⟨h1, h2⟩
    constructor <;> simp only [addProcessNameList, addProcessList] <;> rw [if_pos hcond]

/-- C3 witness: concrete instances of both branches of the amended claim. -/
theorem C3_witness :
    addProcessNameList ["notepad.exe"] "notepad.exe" = ["notepad.exe"] ∧
    addProcessNameList ["notepad.exe"] "Notepad.exe" = ["notepad.exe", "Notepad.exe"] := by
  refine ⟨((C3_exact_match_dedup ["notepad.exe"] "notepad.exe").1 (by decide)).1, ?_⟩
  rw [((C3_exact_match_dedup ["notepad.exe"] "Notepad.exe").2 (by decide) (by decide)).1]
  decide

/-- C4: under Move with snapping disabled, for any button-down at
`origin_point`, any number of moves, and a button-up at `last_point`, the
committed rect is the origin rect translated by `last_point − origin_point`
with its size unchanged; in particular dragging (100,100)-(400,300) by
(50,−20) yields (150,80)-(450,280). -/
theorem C4_move_gesture_final_rect :
    (∀ (origin_rect : Rect) (origin_point : Pt) (moves : List Pt) (last_point : Pt),
      runMoveGesture origin_rect origin_point moves last_point
        = moveRect origin_rect origin_point last_point ∧
      (runMoveGesture origin_rect origin_point moves last_point).left
        = origin_rect.left + (last_point.x - origin_point.x) ∧
      (runMoveGesture origin_rect origin_point moves last_point).top
        = origin_rect.top + (last_point.y - origin_point.y) ∧
      (runMoveGesture origin_rect origin_point moves last_point).width = origin_rect.width ∧
      (runMoveGesture origin_rect origin_point moves last_point).height = origin_rect.height) ∧
    runMoveGesture { left := 100, top := 100, right := 400, bottom := 300 }
        { x := 200, y := 150 } [{ x := 210, y := 160 }, { x := 190, y := 145 }]
        { x := 250, y := 130 }
      = { left := 150, top := 80, right := 450, bottom := 280 } := by
  constructor
  · intro r p0 moves pl
    have h := foldl_sessionMove_origin moves (sessionStart r p0)
    have hrun : runMoveGesture r p0 moves pl = moveRect r p0 pl := by
      unfold runMoveGesture
      show moveRect (moves.foldl sessionMove (sessionStart r p0)).origin_rect
        (moves.foldl sessionMove (sessionStart r p0)).origin_point pl = _
      rw [h.1, h.2]
      rfl
    refine ⟨hrun, ?_, ?_, ?_, ?_⟩ <;>
      simp [hrun, moveRect, Rect.width, Rect.height]
  · decide

/-- C5: in the `AdjustOpacity` state, each wheel event changes the opacity by
the fixed per-notch step and then clamps, so starting from an opacity within
`[floor%, 100%]` the opacity stays within `[floor%, 100%]` for every sequence
of wheel events, regardless of notch counts and directions. -/
theorem C5_opacity_clamped :
    ∀ (floorPct step opacity : Int) (events : List Int),
      floorPct ≤ 100 → floorPct ≤ opacity → opacity ≤ 100 →
      floorPct ≤ processWheel floorPct step opacity events ∧
      processWheel floorPct step opacity events ≤ 100 := by
  intro floorPct step opacity events h100
  induction events generalizing opacity with
  | nil => intro h1 h2; exact ⟨h1, h2⟩
  | cons e es ih =>
    intro h1 h2
    have hb : floorPct ≤ wheelAdjust floorPct step opacity e ∧
        wheelAdjust floorPct step opacity e ≤ 100 := by
      unfold wheelAdjust clampOpacity
      exact ⟨le_max_left _ _, max_le h100 (min_le_left _ _)⟩
    exact ih (wheelAdjust floorPct step opacity e) hb.1 hb.2

/-- C5 witness: a concrete run — floor 20%, step 7 per notch, starting at
100%, with up- and down-notches — stays within `[20, 100]`. -/
theorem C5_witness :
    (20 : Int) ≤ processWheel 20 7 100 [1, -3, 40, -40] ∧
    processWheel 20 7 100 [1, -3, 40, -40] ≤ 100 :=
  C5_opacity_clamped 20 7 100 [1, -3, 40, -40] (by decide) (by decide) (by decide)

/-- C6: `loadRunning` (in both settings components) never mutates the config —
every field of `config`, including `filter_list`, `filter_mode` and `enabled`,
is unchanged whether the `get_running_processes` call succeeds or fails; only
the suggestion state is updated. -/
theorem C6_loadRunning_preserves_config :
    ∀ (sA : PageA.State) (rA : Except Unit (List String))
      (sB : PageB.State) (rB : Except Unit (List String)),
      (PageA.loadRunning sA rA).config = sA.config ∧
      (PageA.loadRunning sA rA).newProcess = sA.newProcess ∧
      (PageA.loadRunning sA rA).saveStatus = sA.saveStatus ∧
      (PageA.loadRunning sA rA).autostartEnabled = sA.autostartEnabled ∧
      (PageA.loadRunning sA rA).loaded = sA.loaded ∧
      (PageB.loadRunning sB rB).config = sB.config ∧
      (PageB.loadRunning sB rB).runningProcessValue = sB.runningProcessValue ∧
      (PageB.loadRunning sB rB).autostartEnabled = sB.autostartEnabled ∧
      (PageB.loadRunning sB rB).loaded = sB.loaded ∧
      (PageB.loadRunning sB rB).lastSavedSnapshot = sB.lastSavedSnapshot := by
  intro sA rA sB rB
  cases rA <;> cases rB <;> exact ⟨rfl, rfl, rfl, rfl, rfl, rfl, rfl, rfl, rfl, rfl⟩

/-- C7: `snap_threshold ≥ 0` is a configuration invariant — `DEFAULT_CONFIG`
has `snap_threshold = 20 ≥ 0`, and every interactive operation of the settings
page leaves `snap_threshold` untouched (none assigns to it). -/
theorem C7_snap_threshold_invariant :
    DEFAULT_CONFIG.snap_threshold = 20 ∧ 0 ≤ DEFAULT_CONFIG.snap_threshold ∧
    (∀ (s : PageB.State) (next : Bool) (r : Except Unit Unit),
      (PageB.toggleAutostart s next r).config.snap_threshold = s.config.snap_threshold) ∧
    (∀ (s : PageB.State) (n : String),
      (PageB.addProcessName s n).config.snap_threshold = s.config.snap_threshold ∧
      (PageB.onRunningProcessSelect s n).config.snap_threshold = s.config.snap_threshold ∧
      (PageB.removeProcess s n).config.snap_threshold = s.config.snap_threshold) ∧
    (∀ (s : PageB.State) (r : Except Unit (List String)),
      (PageB.loadRunning s r).config.snap_threshold = s.config.snap_threshold) ∧
    (∀ (s : PageB.State) (store : Option AppConfig) (r : Except Unit Unit),
      (PageB.autosaveFlush s store r).1.config.snap_threshold = s.config.snap_threshold) ∧
    (∀ (s : PageB.State) (v : ModifierKey),
      (PageB.setMoveModifier s v).config.snap_threshold = s.config.snap_threshold ∧
      (PageB.setResizeModifier1 s v).config.snap_threshold = s.config.snap_threshold ∧
      (PageB.setResizeModifier2 s v).config.snap_threshold = s.config.snap_threshold) ∧
    (∀ (s : PageB.State) (v : FilterMode),
      (PageB.setFilterMode s v).config.snap_threshold = s.config.snap_threshold) ∧
    (∀ (s : PageB.State) (v : Bool),
      (PageB.setAllowNonforeground s v).config.snap_threshold = s.config.snap_threshold ∧
      (PageB.setRaiseOnGrab s v).config.snap_threshold = s.config.snap_threshold ∧
      (PageB.setSnapEnabled s v).config.snap_threshold = s.config.snap_threshold ∧
      (PageB.setScrollOpacity s v).config.snap_threshold = s.config.snap_threshold ∧
      (PageB.setMiddleclickTopmost s v).config.snap_threshold = s.config.snap_threshold) := by
  refine ⟨rfl, by decide, fun s next r => rfl, fun s n => ⟨rfl, ?_, rfl⟩,
    fun s r => by cases r <;> rfl, fun s store r => ?_,
    fun s v => ⟨rfl, rfl, rfl⟩, fun s v => rfl, fun s v => ⟨rfl, rfl, rfl, rfl, rfl⟩⟩
  · unfold PageB.onRunningProcessSelect
    split <;> rfl
  · cases r <;> unfold PageB.autosaveFlush <;> split_ifs <;> rfl

/-- C8 (counterexample): the filter-list invariant (entries non-empty, trimmed
and duplicate-free) is not preserved by `addFromSuggestion` — it performs no
trimming or emptiness check, so adding the empty string to the empty (default)
list yields a list with an empty entry. -/
theorem C8_counterexample :
    filterInv [] ∧ ¬ filterInv (addFromSuggestionList [] "") := by decide

/-- C8 (amended): every element of `filter_list` is a non-empty string without
leading or trailing whitespace and without exact duplicates; this holds for
the empty default list and is preserved by `addProcess`, `addProcessName` and
`removeProcess` for every input, and by `addFromSuggestion` whenever the added
suggestion is itself non-empty and free of edge whitespace. -/
theorem C8_filter_list_invariant :
    filterInv [] ∧
    ∀ (l : List String) (n : String), filterInv l →
      filterInv (addProcessList l n) ∧
      filterInv (addProcessNameList l n) ∧
      filterInv (removeProcessList l n) ∧
      (goodName n = true → filterInv (addFromSuggestionList l n)) := by
  refine ⟨by decide, fun l n h => ⟨filterInv_addProcessList l n h,
    filterInv_addProcessNameList l n h, filterInv_removeProcessList l n h,
    fun hg => filterInv_addFromSuggestionList l n h hg⟩⟩

/-- C8 witness: concrete preservation instances — adding `" b.exe "` (trimmed
to `"b.exe"`), removing an entry, and adding a well-formed suggestion all keep
the invariant. -/
theorem C8_witness :
    filterInv (addProcessList ["a.exe"] " b.exe ") ∧
    filterInv (addProcessNameList ["a.exe"] " b.exe ") ∧
    filterInv (removeProcessList ["a.exe"] "a.exe") ∧
    filterInv (addFromSuggestionList ["a.exe"] "c.exe") := by
  have h1 := C8_filter_list_invariant.2 ["a.exe"] " b.exe " (by decide)
  have h2 := C8_filter_list_invariant.2 ["a.exe"] "c.exe" (by decide)
  have h3 := C8_filter_list_invariant.2 ["a.exe"] "a.exe" (by decide)
  exact ⟨h1.1, h1.2.1, h3.2.2.1, h2.2.2.2 (by decide)⟩

/-- C9: when the store holds no value under the key `config`, `loadConfig`
falls back to `DEFAULT_CONFIG` instead of failing or returning an undefined
value. -/
theorem C9_loadConfig_missing_key_default : loadConfig none = DEFAULT_CONFIG := rfl

/-- C10: `toggleEnabled` always negates the displayed `config.enabled` flag;
the `set_hook_enabled` outcome is swallowed, so the result is identical on
success and on failure — the flip is never rolled back. -/
theorem C10_toggleEnabled_always_flips :
    ∀ (s : PageA.State) (r : Except Unit Unit),
      (PageA.toggleEnabled s r).1.config.enabled = !s.config.enabled ∧
      PageA.toggleEnabled s r = PageA.toggleEnabled s (Except.ok ()) := by
  intro s r
  exact ⟨rfl, rfl⟩

end Glide
